import Mathlib

/-!
Shallow embedding of the WindPowers electricity-price prediction pipeline
(the file `scripts/price-prediction.js` of the repository).  JavaScript
numbers are modelled as exact rationals `ℚ`; the decomposition of a JS
`Date` into hour / day-of-week / month is passed explicitly wherever the
source calls `new Date(...)`; the JSON text layer of `save`/`load` is
modelled as the plain record it serializes.
-/

namespace WindPowers

/- The toolchain marks the core rational operations `@[irreducible]`, which
blocks `decide`-style evaluation of concrete runs of the pipeline; restore
the ordinary reducibility locally for this development. -/
attribute [local semireducible] Rat.add Rat.mul Rat.sub Rat.inv

/-- One day of a grid point's forecast series (`{day, windSpeed, temperature, ...}`);
only the fields the pipeline reads are kept. -/
structure DailyForecast where
  windSpeed : ℚ
  temperature : ℚ
  deriving DecidableEq, Repr

/-- A forecast grid point (`{lat, lon, forecasts}`). -/
structure ForecastPoint where
  lat : ℚ
  lon : ℚ
  forecasts : List DailyForecast
  deriving DecidableEq, Repr

/-- One daily price record; `avgPrice = none` models an absent/undefined field. -/
structure PriceRecord where
  date : String
  avgPrice : Option ℚ
  deriving DecidableEq, Repr

/-- The linear-regression model state; `weights = none` models `this.weights = null`. -/
structure LinearRegression where
  weights : Option (List ℚ)
  bias : ℚ
  featureNames : List String
  deriving DecidableEq, Repr

/-- `new LinearRegression()`: weights null, bias 0, featureNames `[]`. -/
def lrInit : LinearRegression := { weights := none, bias := 0, featureNames := [] }

/-- The body of `predict` for non-null weights:
`x.reduce((sum, val, i) => sum + val * this.weights[i], this.bias)`.
Out-of-range weight indices never occur in the pipeline (all vectors have
length 7); they are modelled as 0. -/
def predictWB (w : List ℚ) (b : ℚ) (x : List ℚ) : ℚ :=
  (x.enum).foldl (fun s p => s + p.2 * w.getD p.1 0) b

/-- `predict(x)`: `if (!this.weights) return 0;` then the dot product plus bias. -/
def predict (m : LinearRegression) (x : List ℚ) : ℚ :=
  match m.weights with
  | none => 0
  | some w => predictWB w m.bias x

/-- The source's in-place weight-update loop
`for (j) { weights[j] -= learningRate * gradient(j) }`, as a fold of
single-index writes over `j = 0..F-1`. -/
def updateWeights (lr : ℚ) (grad : Nat → ℚ) (F : Nat) (w : List ℚ) : List ℚ :=
  (List.range F).foldl (fun acc j => acc.set j (acc.getD j 0 - lr * grad j)) w

/-- One gradient-descent iteration of `fit` as written in the source:
predictions and errors are computed from the pre-iteration weights/bias,
then the weights are updated index by index and finally the bias.
`errors` is `predictions.map((p, i) => p - y[i])` (for the parallel-length
`y` of every pipeline call this is the pairwise difference), the gradient
for feature `j` is `errors.reduce((sum, e, i) => sum + e * X[i][j], 0) / n`,
and the bias gradient is `errors.reduce((sum, e) => sum + e, 0) / n`. -/
def gdIter (X : List (List ℚ)) (y : List ℚ) (F : Nat) (wb : List ℚ × ℚ) : List ℚ × ℚ :=
  let preds := X.map (fun x => predictWB wb.1 wb.2 x)
  let errors := (preds.zip y).map (fun p => p.1 - p.2)
  let n : ℚ := X.length
  let w := updateWeights (1 / 100)
    (fun j => ((errors.zip X).map (fun p => p.1 * p.2.getD j 0)).sum / n) F wb.1
  let b := wb.2 - (1 / 100) * (errors.sum / n)
  (w, b)

/-- `fit(X, y)`: learning rate 0.01, exactly 1000 iterations, weights
re-initialized to the zero vector of length `X[0].length`; the bias is NOT
re-initialized (the source only assigns `this.weights`).  `X = []` makes the
source throw (`X[0].length` of `undefined`); modelled as `.error`. -/
def fit (m : LinearRegression) (X : List (List ℚ)) (y : List ℚ) :
    Except String LinearRegression :=
  match X with
  | [] => .error ("TypeError: X[0] is undefined")
  | x0 :: _ =>
    let F := x0.length
    let wb := (gdIter X y F)^[1000] (List.replicate F 0, m.bias)
    .ok { weights := some wb.1, bias := wb.2, featureNames := m.featureNames }

/-- The persisted model record `{weights, bias, featureNames}`. -/
structure ModelRecord where
  weights : Option (List ℚ)
  bias : ℚ
  featureNames : List String
  deriving DecidableEq, Repr

/-- `getCoefficients()`. -/
def getCoefficients (m : LinearRegression) : ModelRecord :=
  { weights := m.weights, bias := m.bias, featureNames := m.featureNames }

/-- `save(filepath)` writes `JSON.stringify(this.getCoefficients())`; the
persisted value is exactly the coefficients record. -/
def save (m : LinearRegression) : ModelRecord := getCoefficients m

/-- `load(filepath)` replaces all three fields of the model with the fields
of the persisted record and returns the model. -/
def load (m : LinearRegression) (r : ModelRecord) : LinearRegression :=
  { weights := r.weights, bias := r.bias, featureNames := r.featureNames }

/-- The Finland bounding-box filter used by both `extractFeatures` and
`generatePredictions`: `p.lat >= 60 && p.lat <= 70 && p.lon >= 20 && p.lon <= 32`. -/
def inFinland (p : ForecastPoint) : Bool :=
  decide (60 ≤ p.lat ∧ p.lat ≤ 70 ∧ 20 ≤ p.lon ∧ p.lon ≤ 32)

/-- `(p.forecasts[d]?.windSpeed || 0)` in `extractFeatures`: a missing entry
contributes 0; a present wind speed of 0 is falsy and also yields 0, which
coincides with the stored value. -/
def extractorWindAt (p : ForecastPoint) (d : Nat) : ℚ :=
  match p.forecasts[d]? with
  | none => 0
  | some f => f.windSpeed

/-- `(p.forecasts[d]?.temperature || 0)` in `extractFeatures`. -/
def extractorTempAt (p : ForecastPoint) (d : Nat) : ℚ :=
  match p.forecasts[d]? with
  | none => 0
  | some f => f.temperature

/-- `(forecast?.windSpeed || 5)` in `generatePredictions`: a missing day-`d`
entry, or a present but falsy (zero) wind speed, contributes 5. -/
def predictorWindAt (p : ForecastPoint) (d : Nat) : ℚ :=
  match p.forecasts[d]? with
  | none => 5
  | some f => if f.windSpeed = 0 then 5 else f.windSpeed

/-- `(forecast?.temperature || 0)` in `generatePredictions`. -/
def predictorTempAt (p : ForecastPoint) (d : Nat) : ℚ :=
  match p.forecasts[d]? with
  | none => 0
  | some f => f.temperature

/-- `pts.reduce((sum, p) => sum + f(p), 0) / (pts.length || 1)`. -/
def avgBy (f : ForecastPoint → ℚ) (pts : List ForecastPoint) : ℚ :=
  (pts.map f).sum / (if pts.length = 0 then 1 else (pts.length : ℚ))

/-- Day-`d` average wind speed over the filtered points in `extractFeatures`. -/
def extractorAvgWind (pts : List ForecastPoint) (d : Nat) : ℚ :=
  avgBy (fun p => extractorWindAt p d) pts

/-- Day-`d` average temperature over the filtered points in `extractFeatures`. -/
def extractorAvgTemp (pts : List ForecastPoint) (d : Nat) : ℚ :=
  avgBy (fun p => extractorTempAt p d) pts

/-- Day-`d` average wind speed over the filtered points in `generatePredictions`. -/
def predictorAvgWind (pts : List ForecastPoint) (d : Nat) : ℚ :=
  avgBy (fun p => predictorWindAt p d) pts

/-- Day-`d` average temperature over the filtered points in `generatePredictions`. -/
def predictorAvgTemp (pts : List ForecastPoint) (d : Nat) : ℚ :=
  avgBy (fun p => predictorTempAt p d) pts

/-- `String(targetDate).split('').reduce((a, c) => a + c.charCodeAt(0), 0)`:
the date strings are ASCII, where `charCodeAt` agrees with `Char.toNat`. -/
def charCodeSum (s : String) : Nat :=
  s.data.foldl (fun a c => a + c.toNat) 0

/-- The decomposition of a JS `Date` value: `getHours()`, `getDay()`
(0 = Sunday), `getMonth()` (0-based). -/
structure DateParts where
  hour : Nat
  dayOfWeek : Nat
  month : Nat
  deriving DecidableEq, Repr

/-- `month >= 10 || month <= 2 ? 1 : 0`. -/
def isWinterFlag (month : Nat) : ℚ := if 10 ≤ month ∨ month ≤ 2 then 1 else 0

/-- `dayOfWeek === 0 || dayOfWeek === 6 ? 1 : 0`. -/
def isWeekendFlag (dow : Nat) : ℚ := if dow = 0 ∨ dow = 6 then 1 else 0

/-- `(hour >= 7 && hour <= 9) ? 1 : 0`. -/
def isMorningPeakFlag (hour : Nat) : ℚ := if 7 ≤ hour ∧ hour ≤ 9 then 1 else 0

/-- `(hour >= 17 && hour <= 20) ? 1 : 0`. -/
def isEveningPeakFlag (hour : Nat) : ℚ := if 17 ≤ hour ∧ hour ≤ 20 then 1 else 0

/-- `extractFeatures(windData, priceData, targetDate, dayIndexInPriceData)`.
The `priceData` argument is accepted and ignored exactly as in the source;
the `new Date(targetDate)` decomposition is passed as `dp`. -/
def extractFeatures (windData : List ForecastPoint) (priceData : List PriceRecord)
    (targetDate : String) (dayIndex : Int) (dp : DateParts) : List ℚ :=
  let finlandPoints := windData.filter inFinland
  let avgWindSpeed :=
    if 0 ≤ dayIndex ∧ dayIndex < 9 ∧ 0 < finlandPoints.length then
      extractorAvgWind finlandPoints dayIndex.toNat
    else 3 + ((charCodeSum targetDate % 100 : ℕ) : ℚ) / 100 * 8
  let avgTemperature :=
    if 0 ≤ dayIndex ∧ dayIndex < 9 ∧ 0 < finlandPoints.length then
      extractorAvgTemp finlandPoints dayIndex.toNat
    else -5 + ((charCodeSum targetDate % 100 : ℕ) : ℚ) / 100 * 20
  [avgWindSpeed, avgTemperature, isWinterFlag dp.month, isMorningPeakFlag dp.hour,
   isEveningPeakFlag dp.hour, isWeekendFlag dp.dayOfWeek,
   avgWindSpeed * isWinterFlag dp.month]

/-- The price-level classification of `generatePredictions`, in the literal
order of the source: `< 40` LOW, then `> 100` HIGH, then `> 150` VERY HIGH,
else NORMAL. -/
def priceLevel (avgPrice : ℚ) : String :=
  if avgPrice < 40 then ("LOW")
  else if avgPrice > 100 then ("HIGH")
  else if avgPrice > 150 then ("VERY HIGH")
  else ("NORMAL")

/-- `Math.round(x * 100) / 100` (JS `Math.round` is floor of `x + 1/2`). -/
def round2 (x : ℚ) : ℚ := ((⌊x * 100 + 1 / 2⌋ : ℤ) : ℚ) / 100

/-- `Math.round(x * 10) / 10`. -/
def round1 (x : ℚ) : ℚ := ((⌊x * 10 + 1 / 2⌋ : ℤ) : ℚ) / 10

/-- The hourly feature vector built inline in `generatePredictions`. -/
def predictorFeatures (aws atemp : ℚ) (month dow hour : Nat) : List ℚ :=
  [aws, atemp, isWinterFlag month, isMorningPeakFlag hour, isEveningPeakFlag hour,
   isWeekendFlag dow, aws * isWinterFlag month]

/-- One hourly price: `Math.round(Math.max(0, model.predict(features)) * 100) / 100`. -/
def hourlyPrice (m : LinearRegression) (aws atemp : ℚ) (month dow hour : Nat) : ℚ :=
  round2 (max 0 (predict m (predictorFeatures aws atemp month dow hour)))

/-- The daily average of the 24 rounded hourly predictions. -/
def dailyAvgPrice (m : LinearRegression) (windData : List ForecastPoint)
    (day month dow : Nat) : ℚ :=
  let pts := windData.filter inFinland
  ((List.range 24).map
    (fun hour => hourlyPrice m (predictorAvgWind pts day) (predictorAvgTemp pts day)
      month dow hour)).sum / 24

/-- One element of the persisted 9-day prediction set. -/
structure Prediction where
  dayName : String
  avgWindSpeed : ℚ
  avgTemperature : ℚ
  predictedPrice : ℚ
  priceLevel : String
  confidence : ℚ
  deriving DecidableEq, Repr

/-- The per-day record pushed by `generatePredictions` for day offset `day`
of a date with month `month` and day-of-week `dow` (both constant across the
24 hours of the day). -/
def dailyPrediction (m : LinearRegression) (windData : List ForecastPoint)
    (day month dow : Nat) : Prediction :=
  let pts := windData.filter inFinland
  let avgPrice := dailyAvgPrice m windData day month dow
  { dayName :=
      if day = 0 then ("Today") else if day = 1 then ("Tomorrow")
      else "+" ++ toString day ++ " days",
    avgWindSpeed := round1 (predictorAvgWind pts day),
    avgTemperature := round1 (predictorAvgTemp pts day),
    predictedPrice := round2 avgPrice,
    priceLevel := priceLevel avgPrice,
    confidence := 7 / 10 - (day : ℚ) * (5 / 100) }

/-- The feature-name list assigned by `trainModel`. -/
def featureNamesList : List String :=
  ["windSpeed", "temperature", "isWinter", "isMorningPeak", "isEveningPeak",
   "isWeekend", "windSpeed_x_isWinter"]

/-- `dayData.avgPrice || 50`: the default 50 applies when `avgPrice` is
absent and also when it is the falsy number 0. -/
def targetOf (r : PriceRecord) : ℚ :=
  match r.avgPrice with
  | none => 50
  | some p => if p = 0 then 50 else p

/-- Lines 152-155 of the source: an empty (or non-array) price list is
replaced by the generated sample data before training. -/
def trainingPriceData (priceData sample : List PriceRecord) : List PriceRecord :=
  if priceData.length = 0 then sample else priceData

/-- `trainModel()`, starting from the already-loaded stores: substitute the
sample price data when the price list is empty, build `(X, y)` by one
`extractFeatures` call per record (array index as day index, `avgPrice || 50`
as target), and fit a fresh model carrying `featureNamesList`.  `sample`
stands for the `generateSamplePriceData()` result and `dateOf` for the
`new Date(...)` decomposition of a date string.  The source has no error
path here: the only failure is `fit` throwing on an empty design matrix. -/
def trainModel (windData : List ForecastPoint) (priceData sample : List PriceRecord)
    (dateOf : String → DateParts) : Except String LinearRegression :=
  let pd := trainingPriceData priceData sample
  let X := pd.enum.map
    (fun p => extractFeatures windData pd p.2.date (p.1 : Int) (dateOf p.2.date))
  let y := pd.map targetOf
  fit { lrInit with featureNames := featureNamesList } X y

/-- The training matrix of the C4 convergence scenario. -/
def c4X : List (List ℚ) :=
  [[1, 0, 0, 0, 0, 0, 0], [2, 0, 0, 0, 0, 0, 0], [3, 0, 0, 0, 0, 0, 0]]

/-- The training targets of the C4 convergence scenario. -/
def c4y : List ℚ := [10, 20, 30]

/-- The model fitted in the C4 scenario (`fit` succeeds on the non-empty
matrix, so the `getD` default is never used). -/
def c4Fitted : LinearRegression := ((fit lrInit c4X c4y).toOption).getD lrInit

/-- The two-variable recurrence that the C4 training run follows: on the
C4 data only the first weight and the bias evolve (all other feature
columns are zero).  This is a proof artifact, derived from `gdIter` by the
lemma `gdIter_c4` below. -/
def c4Step (wb : ℚ × ℚ) : ℚ × ℚ :=
  (wb.1 - (6 * wb.2 + 14 * wb.1 - 140) / 300, wb.2 - (3 * wb.2 + 6 * wb.1 - 60) / 300)

/-- The exact state of the C4 scalar recurrence (proof artifact for the
chunked evaluation; see the iteration lemmas below). -/
def c4Q250 : ℚ × ℚ :=
  ((4194878576327368539863946538005552639065809148525526011589924329429320025789803931444548117403725691336138890565593851685080441144013951229015982444930507982747595793327634231684300568941187186018404819292001553749352700118608459799905227032930956764260481783534568266515092103683749202385962953194727300253716752164215719945469111153183115750253618464708409994449566932866051288260828585748218585853449343728142340717998791735443273513382701503559547878963570818474156393504823590805175672632194382583326396328990924656003162369652266745705174315218912502108883023806385632390444228333210195714313557520821660177646531 : ℚ) /
    476709370291991538974416278428193769253151065872870843592609137277215612584932907890952569115602227441055094446326815622500000000000000000000000000000000000000000000000000000000000000000000000000000000000000000000000000000000000000000000000000000000000000000000000000000000000000000000000000000000000000000000000000000000000000000000000000000000000000000000000000000000000000000000000000000000000000000000000000000000000000000000000000000000000000000000000000000000000000000000000000000000000000000000000000000000000000000000000000000000000000000000000000000000000000000000000000000000000000000000000000000000000000000,
   (6937453718560114750707665879333125556526949425206923700076004404616285220670381666715512290701440960269864652666268662290217120515429869053248007322423251850473637852381147002576118559723338367529663598418017996565647239961203374067174363559488132928373593259734927801499673418589253351817659173861018167288856745983285958457987426621807357027320654785773998965224521031174482380022418664389079196987563598004396281968753806914664591333821773439896325217919112263548925406356378720882862880112689507207195639924995760073172496384496756876214671655666523098590226071997829521089279363447424449509542132321364242013583 : ℚ) /
    2542449974890621541196886818283700102683472351321977832493915398811816600452975508751747035283211879685627170380409683320000000000000000000000000000000000000000000000000000000000000000000000000000000000000000000000000000000000000000000000000000000000000000000000000000000000000000000000000000000000000000000000000000000000000000000000000000000000000000000000000000000000000000000000000000000000000000000000000000000000000000000000000000000000000000000000000000000000000000000000000000000000000000000000000000000000000000000000000000000000000000000000000000000000000000000000000000000000000000000000000000000000000000)

/-- The exact state of the C4 scalar recurrence (proof artifact for the
chunked evaluation; see the iteration lemmas below). -/
def c4Q500 : ℚ × ℚ :=
  ((82822971746605918272086468787673074942797638743316948659179109108948370797527037140946027483557328199931108088222107424253279857070310231694633155997017171026868189029356390666602006323814630213541683249084757392014918745769919371048191898627643394153653877170999324851010446934575290906221205870545704319391341525280790830100802753087320053709176085137461426306066386333866647596676677386057285915508156909328805037211406192779977922970575955221004893057442674039215287769666452026693107648278553491562471843626256927047757830816583315387634299387961886195824792878094747183236584460062696793898078513390359014088532679900446539206474206463214754286557323388764670427751524606181250461508547666666776803995515139799959405871665421544902259246608410003351992455730321232481607430933591054291158144720045729067608845686419894013004526110993553346406375347187730175068818736254568416611056786110969812472058531737555784545412465778043166373152420982869843908302998097622126323930076450522128149982693280012570411015025415920938091778334722092627416002949294709026474536126391078922396023473351122778872200243718757165131381358702122605634163865506242799301617129484413992582268235495071818228421444597895367843585667729632259081277579023531 : ℚ) /
    9090072948967484210596316769885829779505846256500405760086508958145150047895973871049627065744847195827044925633600963938213982879253266535748107729140506445005442811961910862531335709141453302493147592897538144682002096497534948844402500250000000000000000000000000000000000000000000000000000000000000000000000000000000000000000000000000000000000000000000000000000000000000000000000000000000000000000000000000000000000000000000000000000000000000000000000000000000000000000000000000000000000000000000000000000000000000000000000000000000000000000000000000000000000000000000000000000000000000000000000000000000000000000000000000000000000000000000000000000000000000000000000000000000000000000000000000000000000000000000000000000000000000000000000000000000000000000000000000000000000000000000000000000000000000000000000000000000000000000000000000000000000000000000000000000000000000000000000000000000000000000000000000000000000000000000000000000000000000000000000000000000000000000000000000000000000000000000000000000000000000000000000000000000000000000000000000000000000000000000000000000000000000000000000000000000000000000000000000000000000000000000000000000000000000000000000000000000000000000000000000000000000000000000000000000000000000,
   (97934090795966387867576982375106179520971511966625271740714348972095429295806138268602955001490962233322328761670022005979249375555346441603190066469388161908475502796885002189538308774061171322663595025618642263787222328676197561152701563653685388866701877865587581743204306292328630802146626053510082817781330734485159672342067866977350126480375182171796941984461908979334287595476766826734224427288531746396110282838068590876079064732871187372228569835040742763211796759443936670740353495988662624296786071583651307344687832142492293639398346218458219843422596335812321513088587687462210930025880976561610218237832947723013230156872407028510880462402131341588810741444373513860185560947388706504567528117792033013846104989387428105867610371882849030777633119801035602680425261386827483422423532129287332124959792687792176118355308423076317602735109751633330367288655910691512951930165478874607540795191343451149861155500156020402665693991063599212527157058597118355017818178310658704525447985573856868872738184877935447455915935835384781128552722148588844039190095608652936791981794527726575401928194021319999587933325383829240869722306354134085100168796482675067037614017903920957503861599506604051401876608782992521261240385952791 : ℚ) /
    48480389061159915789847022772724425490697846701335497387128047776774133588778527312264677683972518377744239603379205141003807908689350754857323241222082701040029028330463524600167123782087750946630120495453536771637344514653519727170146668000000000000000000000000000000000000000000000000000000000000000000000000000000000000000000000000000000000000000000000000000000000000000000000000000000000000000000000000000000000000000000000000000000000000000000000000000000000000000000000000000000000000000000000000000000000000000000000000000000000000000000000000000000000000000000000000000000000000000000000000000000000000000000000000000000000000000000000000000000000000000000000000000000000000000000000000000000000000000000000000000000000000000000000000000000000000000000000000000000000000000000000000000000000000000000000000000000000000000000000000000000000000000000000000000000000000000000000000000000000000000000000000000000000000000000000000000000000000000000000000000000000000000000000000000000000000000000000000000000000000000000000000000000000000000000000000000000000000000000000000000000000000000000000000000000000000000000000000000000000000000000000000000000000000000000000000000000000000000000000000000000000000000000000000000000000000)

/-- The exact state of the C4 scalar recurrence (proof artifact for the
chunked evaluation; see the iteration lemmas below). -/
def c4Q750 : ℚ × ℚ :=
  ((1619297835490827680992696156523201572495891682463634316511167682394496492834350114391874274927805536105943640962805168885968940949176321933829955606116132723370761607007161278459449636607705418452967479107336730991077736874754447099745071548641018865758283786781136806386072780173754801587937837995462536370384313595202777824055053688539813481750120516209704187764628084826251028328416142193789644563069602414238545709872674997922947392671149437534045691406733328061759718418768850734909021665105547576186486435344316808094902511764295334816313442823678576855072572092561734783804218095640415219898143966546876678055117459163461717533741863771459621277460719472282359007376695028404097219375919266640753647871274349810041752937954439398501602660080873765039008248926179631351662164647282437952999647990353281925527009256319588175363349649483277346781874377844316815528987725868200523980795815118095042814459796879913861985854995101384831679090214346388406776420178220343744693719209091599843824964552885152519893176093763373844491719396135859917921175116757033648859417917380597342148558110687546946992777256229445976095779323488280940512409321789400028982162273786950237985872824845420285568929215903933612915501966827344217825580548169774662708608000190399514594505153453627982667212422755800939314396479152880330973872365095367116743685574320847800815186867797347110005381880510421812897483493780642798324039662200251392423224447442476927796765846747617541419604796266223156877446169817933950169510942581305420956829230223124433737364026032082644973704743735036273386091719650790303721435331083056469008395540673665850595973688784545866077467139468559434970308547033945036806356189110357390764223448085584964430104785272541554412791754886664087825590926538987600241618500202622780919074375614184500152850906958156535889058301300641325518021284462255400531 : ℚ) /
    173332918056422237531081750876365432928286037114996321541280777354711434110980227145346761845824158561006845332475305813226236637288597917482670173380206197971934198331564468035097433408520973282586505774692440190689156098188157173235463209769368032059636850400799104728803721893889862492281919696150489127563447978155541162666960469397080408975106810390406225000000000000000000000000000000000000000000000000000000000000000000000000000000000000000000000000000000000000000000000000000000000000000000000000000000000000000000000000000000000000000000000000000000000000000000000000000000000000000000000000000000000000000000000000000000000000000000000000000000000000000000000000000000000000000000000000000000000000000000000000000000000000000000000000000000000000000000000000000000000000000000000000000000000000000000000000000000000000000000000000000000000000000000000000000000000000000000000000000000000000000000000000000000000000000000000000000000000000000000000000000000000000000000000000000000000000000000000000000000000000000000000000000000000000000000000000000000000000000000000000000000000000000000000000000000000000000000000000000000000000000000000000000000000000000000000000000000000000000000000000000000000000000000000000000000000000000000000000000000000000000000000000000000000000000000000000000000000000000000000000000000000000000000000000000000000000000000000000000000000000000000000000000000000000000000000000000000000000000000000000000000000000000000000000000000000000000000000000000000000000000000000000000000000000000000000000000000000000000000000000000000000000000000000000000000000000000000000000000000000000000000000000000000000000000000000000000000000000000000000000000000000000000000000000000000000000000000000000000000000000000000000000000000000000000000000000000000000000000000000000000000000000000000000000000000000000000000000000000000000,
   (1382506935372920871203774740641726051692969393283730212001324165977358728072943764715525639331636038669361586072505781358901700608592403101399974779011093696759391933656457685845848712092736326971491065763978457514297683261580632191021586102878718832343811960472804733303207336788213538701523506865150168745511446303182045125387235141090393866364603572452446372868380759566215249388736358683621886425969130394783827616417314941630832571270602074034494415027630044438520893795267206202448744596379573631798477408070684549661154634005799085801910634364958441707588021166553675752725102455713138028238517689981915941896083257629715489015144849035323016576445049613779675855486375660370913414685044400544903674984442435011963143172716861731671218867299080204919570163766425714153976530930053544582215644891578427216864616909736188730116769311821189726988131877585939364670635173551507274704586236324754612797342863429460832248062851089962966419641004767878106438747504027418641965542285579273238226267613234629520474266167296152493166362575744745573350999010857881300125129844005440606994115578121742212629125739241425575745916803504633713402802692641639163745923169161184232541930333170252576012609395220087132463041005954184670872447224629057278324844389185423035546890564091786868367003685056638100655362382765284672419665657776688145111312891948677381887953566416145581842429148852756256166000866770612182930131024079924919935219154157522660860187663427813419127804705955808757300273773079236487763092811347074219618368112034279098044887100127918058160936755812549455153260227280109182550154553430104300908871351086192872104795857758660265261977779312782742295962554575086470541010110564599920743548400403311598755592313803427938214208893570923938772909255214466541761114314190389987139597354194414289387837965390121444780579437809971453840202965477051999 : ℚ) /
    924442229634251933499102671340615642284192197946647048220164145891794315258561211441849396511062178992036508439868297670539928732205855559907574258027766389183649057768343829520519644845445190840461364131693014350342165857003504923922470452103296170984729868804261891886953183434079266625503571712802608680338389216829552867557122503451095514533902988748833200000000000000000000000000000000000000000000000000000000000000000000000000000000000000000000000000000000000000000000000000000000000000000000000000000000000000000000000000000000000000000000000000000000000000000000000000000000000000000000000000000000000000000000000000000000000000000000000000000000000000000000000000000000000000000000000000000000000000000000000000000000000000000000000000000000000000000000000000000000000000000000000000000000000000000000000000000000000000000000000000000000000000000000000000000000000000000000000000000000000000000000000000000000000000000000000000000000000000000000000000000000000000000000000000000000000000000000000000000000000000000000000000000000000000000000000000000000000000000000000000000000000000000000000000000000000000000000000000000000000000000000000000000000000000000000000000000000000000000000000000000000000000000000000000000000000000000000000000000000000000000000000000000000000000000000000000000000000000000000000000000000000000000000000000000000000000000000000000000000000000000000000000000000000000000000000000000000000000000000000000000000000000000000000000000000000000000000000000000000000000000000000000000000000000000000000000000000000000000000000000000000000000000000000000000000000000000000000000000000000000000000000000000000000000000000000000000000000000000000000000000000000000000000000000000000000000000000000000000000000000000000000000000000000000000000000000000000000000000000000000000000000000000000000000000000000000000000000000000000)

/-- The exact state of the C4 scalar recurrence (proof artifact for the
chunked evaluation; see the iteration lemmas below). -/
def c4Q1000 : ℚ × ℚ :=
  ((31442023317955243366783947669377893711763762846705222777680939733526490357984939662427377617527530422365630285991732437293176508256620821792660435167366824075544700993734960499860797049697706607785576775679837369618630160807285583772596522876720072363409634227694582282834563505913969322050920748575591072303850795277121895997290550513919952288700795867408259683290140194235465886166608610290781112031532767721206489159154989235088726679042051612379393400515006562965559689238721063710785870879368734485677685498695913737003983139593139368266998905233826311754318106651380163645625626295113839973907284134454056045531253642337263683910179153734419928773529682679501036534654544293626610278758687167113209891331851592118413219514296605314381800328284420624471784878366563497714908579252278897142991049400137651290085864145767424329327634726665085619014666785159915445031063886834012688182541672790109794940322120656870653353183966018534080713079618310026644217278359236107337190156753840289967750375128696847473362866894865898393310929750682315697716018825511399159355267434831905887895704944498546946127664675181276935715979790413881676109651341069211280455094024465301398909104409813170272597735219081052712489097100355918151440976066762240111721391981038079488147559194341443174936319508011159701211698773896532073930431688801030054491718583998446937040404807758616434593554717845828622355120823962697155466024030906128188404001677321823278668690941335180430015434699846766817192274048739103484672668863714517584880056694175307180912673350543418795771690062980324098834088285891984041162020512554210002394862412896211216537647117913169215142736897352604200559234363149027083602745075930378667402696947264861595478393458013277052457342223295592877344594667244774124196028573398944843002478534082741953900912751951876166789149614000016795043575199720685600396036644235151136126085299189973074907343563158801128378823944747636245146443826926581019226345085539428913576164159074485206242356816329488947500519170426706380965364340813544433118676074053047250486260844658146828055563047001315099783968396974568772872369190275364029222701760527234346086088792798014294932832729177394019745461129409171744599755028146108065807714886541919186819349288207369822656448983733066850908375091366068629738863315181891132463119072411557364047435773155961488056982289198381617077861924230932259922626874664561261294845888926301867199384886601754081355916896942957347261493056138757959206777531 : ℚ) /
    3305177048702016592226138149380360914913555081880370419162300920567071493366762248851945784626520154909774444242181455889877386455251547279663356813144884185069050562995802009695036935572412103185976000293971545102822369539057736095153915432635216686226265445313700861013867635992597239543663420637290340552075671409446455725571040995769719742296391010212247344023433105429615899846738791912547351470272651065224178597160257035875964121867914580026535915330432756922257138050002500000000000000000000000000000000000000000000000000000000000000000000000000000000000000000000000000000000000000000000000000000000000000000000000000000000000000000000000000000000000000000000000000000000000000000000000000000000000000000000000000000000000000000000000000000000000000000000000000000000000000000000000000000000000000000000000000000000000000000000000000000000000000000000000000000000000000000000000000000000000000000000000000000000000000000000000000000000000000000000000000000000000000000000000000000000000000000000000000000000000000000000000000000000000000000000000000000000000000000000000000000000000000000000000000000000000000000000000000000000000000000000000000000000000000000000000000000000000000000000000000000000000000000000000000000000000000000000000000000000000000000000000000000000000000000000000000000000000000000000000000000000000000000000000000000000000000000000000000000000000000000000000000000000000000000000000000000000000000000000000000000000000000000000000000000000000000000000000000000000000000000000000000000000000000000000000000000000000000000000000000000000000000000000000000000000000000000000000000000000000000000000000000000000000000000000000000000000000000000000000000000000000000000000000000000000000000000000000000000000000000000000000000000000000000000000000000000000000000000000000000000000000000000000000000000000000000000000000000000000000000000000000000000000000000000000000000000000000000000000000000000000000000000000000000000000000000000000000000000000000000000000000000000000000000000000000000000000000000000000000000000000000000000000000000000000000000000000000000000000000000000000000000000000000000000000000000000000000000000000000000000000000000000000000000000000000000000000000000000000000000000000000000000000000000000000000000000000000000000000000000000000000000000000000000000000000000000000000000000000000000000000000000000000000000000000000000000000000000000000000000000000000000000000000000000000000000000000000000000000000000000000000000000,
   (19516446324445069129903037054171024637605141128014957571506345960032821872066577881004642647295771657137114753019632831659723044374632872708472871785974660321013491262193919259753179836857137744563989948074304366945681860817756116952941043534526087743544811979880988486784019720871054271952551409137186878341406841064036881972852661638049832648400419570810284255108501110686455173732054900200622021715781167310756392147888633463379162286210433033867768690843332281681373439730652353320523932564650282563298440367940260737958481809444310876619829988631454971341753367575366057294575873300848779804808120883942461392110524083663971315920519674248332715949527055688348523120702980108449594945358363583008094314915879873826994590685904114562601371183770837536533041832261961737051423079387959737522609911138016750192816516375232504834130494129084220827699527017873784690831926894304290281424669610773570305380036648471872755786006936408098175827131226710046405819348244235248098162301063421633596965712879833326683149068147873323010287792313982527024105549947929107776533704904207372196955537063321845784620189606624345484860785502136748422035850009500872679093148280381495705426564125976515206012483571550482565197762303772405372536833369912605018103541425309254094335599222217200102440029353118524027611470539925428952451687797181670843913641432909409208704233084120709034525581104671480575476065557399395614741868361990397277365691021817402078239221220712446689029269893520549566764931864106263108057361180648156054804485117564982356689252916892819896503742305388233280236754679768829444217131186192999391801886034751241173917205520283435827917155711973385395124262879543328307886126093757981037432554451700372095708047278518828193730458921259538459868588266021186364572556955707839826975938167142671262864400570379188998807465650427869116786407512238758995474582450601647574851883041635803283436216536280029803372208100822325198258555699096805172743438522353156465182905405714819799964767210405107869422824970882040724315278033169570604227644859007236659344202046319104630225698909722270439152857850595399974923872019549461042002792137327606135137813522248157705319510273171825447194452494475777490314322068754812227249198234766810713104168630934465318404851900242770151532519813655513586488710543425718250058408038565652396411347604420169568984161436189931237287461984214607542218150406357657200697748478390126004672086525611177407544369624919503376627375166034352195311207 : ℚ) /
    17627610926410755158539403463361924879538960436695308902198938243024381297956065327210377518008107492852130369291634431412679394428008252158204569670106048987034936335977610718373530323052864550325205334901181573881719304208307925840820882307387822326540082375006404592073960725293851944232871576732215149611070247517047763869712218644105171958914085387798652501458309895624618132515940223533585874508120805681195619184854704191338475316628877760141524881762308036918704736266680000000000000000000000000000000000000000000000000000000000000000000000000000000000000000000000000000000000000000000000000000000000000000000000000000000000000000000000000000000000000000000000000000000000000000000000000000000000000000000000000000000000000000000000000000000000000000000000000000000000000000000000000000000000000000000000000000000000000000000000000000000000000000000000000000000000000000000000000000000000000000000000000000000000000000000000000000000000000000000000000000000000000000000000000000000000000000000000000000000000000000000000000000000000000000000000000000000000000000000000000000000000000000000000000000000000000000000000000000000000000000000000000000000000000000000000000000000000000000000000000000000000000000000000000000000000000000000000000000000000000000000000000000000000000000000000000000000000000000000000000000000000000000000000000000000000000000000000000000000000000000000000000000000000000000000000000000000000000000000000000000000000000000000000000000000000000000000000000000000000000000000000000000000000000000000000000000000000000000000000000000000000000000000000000000000000000000000000000000000000000000000000000000000000000000000000000000000000000000000000000000000000000000000000000000000000000000000000000000000000000000000000000000000000000000000000000000000000000000000000000000000000000000000000000000000000000000000000000000000000000000000000000000000000000000000000000000000000000000000000000000000000000000000000000000000000000000000000000000000000000000000000000000000000000000000000000000000000000000000000000000000000000000000000000000000000000000000000000000000000000000000000000000000000000000000000000000000000000000000000000000000000000000000000000000000000000000000000000000000000000000000000000000000000000000000000000000000000000000000000000000000000000000000000000000000000000000000000000000000000000000000000000000000000000000000000000000000000000000000000000000000000000000000000000000000000000000000000000000000000000000000000000000)

/-- One gradient-descent iteration in the synchronous form the
specification describes ("compute all N errors from the pre-iteration
weights and bias, then update every weight j by subtracting
lr x mean(error_i x X[i][j]) and the bias by lr x mean(error)").  This is
the spec-side definition for the refinement comparison with `gdIter`. -/
def gdStepSpec (X : List (List ℚ)) (y : List ℚ) (wb : List ℚ × ℚ) : List ℚ × ℚ :=
  let preds := X.map (fun x => predictWB wb.1 wb.2 x)
  let errors := (preds.zip y).map (fun p => p.1 - p.2)
  let n : ℚ := X.length
  ((List.range wb.1.length).map
    (fun j => wb.1.getD j 0 -
      (1 / 100) * (((errors.zip X).map (fun p => p.1 * p.2.getD j 0)).sum / n)),
   wb.2 - (1 / 100) * (errors.sum / n))

/-! ### Theorems -/

/-- C1 counterexample: a daily average of 151 (> 150) is classified HIGH by
the source, not VERY HIGH: the `> 100` test fires first, so the VERY HIGH
branch is unreachable. -/
theorem priceLevel_over150_cex :
    priceLevel 151 = "HIGH" ∧ priceLevel 151 ≠ "VERY HIGH" := by
  have h : priceLevel 151 = "HIGH" := by norm_num [priceLevel]
  exact ⟨h, by rw [h]; decide⟩

/-- C1 (amended): the classification is LOW below 40, HIGH above 100
(including everything above 150 - the VERY HIGH branch is dead code),
NORMAL in [40, 100]; the spot checks 39.99, 40.01, 100.01 behave as
claimed, and `generatePredictions` classifies each day by applying
`priceLevel` to the unrounded daily average price. -/
theorem priceLevel_amended :
    (∀ a : ℚ, a < 40 → priceLevel a = "LOW") ∧
    (∀ a : ℚ, 100 < a → priceLevel a = "HIGH") ∧
    (∀ a : ℚ, 40 ≤ a → a ≤ 100 → priceLevel a = "NORMAL") ∧
    (∀ a : ℚ, priceLevel a ≠ "VERY HIGH") ∧
    priceLevel (3999 / 100) = "LOW" ∧
    priceLevel (4001 / 100) = "NORMAL" ∧
    priceLevel (10001 / 100) = "HIGH" ∧
    (∀ m wd day month dow,
      (dailyPrediction m wd day month dow).priceLevel =
        priceLevel (dailyAvgPrice m wd day month dow)) := by
  refine ⟨fun a ha => ?_, fun a ha => ?_, fun a ha1 ha2 => ?_, fun a => ?_, ?_, ?_, ?_,
    fun m wd day month dow => rfl⟩
  · simp [priceLevel, ha]
  · have h1 : ¬ a < 40 := by linarith
    simp [priceLevel, h1, ha]
  · have h1 : ¬ a < 40 := by linarith
    have h2 : ¬ a > 100 := by linarith
    have h3 : ¬ a > 150 := by linarith
    simp [priceLevel, h1, h2, h3]
  · by_cases h1 : a < 40
    · simp [priceLevel, h1]
    · by_cases h2 : a > 100
      · simp [priceLevel, h1, h2]
      · have h3 : ¬ a > 150 := by linarith [not_lt.mp h2]
        simp [priceLevel, h1, h2, h3]
  · norm_num [priceLevel]
  · norm_num [priceLevel]
  · norm_num [priceLevel]

/-- C1 witness: the amended classification at concrete averages. -/
theorem priceLevel_amended_witness :
    priceLevel 30 = "LOW" ∧ priceLevel 120 = "HIGH" ∧ priceLevel 70 = "NORMAL" ∧
    priceLevel 200 ≠ "VERY HIGH" :=
  ⟨priceLevel_amended.1 30 (by norm_num),
   priceLevel_amended.2.1 120 (by norm_num),
   priceLevel_amended.2.2.1 70 (by norm_num) (by norm_num),
   priceLevel_amended.2.2.2.1 200⟩

/-- C5: a freshly constructed model (weights null) predicts 0 for every
input vector instead of failing. -/
theorem predict_unfitted_returns_zero : ∀ x : List ℚ, predict lrInit x = 0 :=
  fun _ => rfl

/-- C7: for every fitted model, loading the saved coefficients record
reproduces the model's weights, bias and featureNames exactly. -/
theorem load_save_roundtrip (m m0 : LinearRegression) (w : List ℚ)
    (h : m.weights = some w) : load m0 (save m) = m := rfl

/-- C7 witness: the round trip at a concrete fitted model. -/
theorem load_save_roundtrip_witness :
    load lrInit (save ⟨some [1, 2], 3, ["a"]⟩) = ⟨some [1, 2], 3, ["a"]⟩ :=
  load_save_roundtrip ⟨some [1, 2], 3, ["a"]⟩ lrInit [1, 2] rfl

/-- C9 counterexample: a record whose `avgPrice` is present and equal to 0
gets the default target 50, not its own value 0: `avgPrice || 50` treats 0
as falsy. -/
theorem targetOf_zero_price_cex :
    targetOf ⟨"2025-01-01", some 0⟩ = 50 ∧ targetOf ⟨"2025-01-01", some 0⟩ ≠ 0 := by
  constructor <;> norm_num [targetOf]

/-- C9 (amended): the Trainer's target is the record's `avgPrice` exactly
when it is present and nonzero; the default 50 applies when `avgPrice` is
absent and also when it equals 0 (JavaScript falsy semantics of `||`). -/
theorem targetOf_spec :
    (∀ (d : String) (p : ℚ), p ≠ 0 → targetOf ⟨d, some p⟩ = p) ∧
    (∀ d : String, targetOf ⟨d, none⟩ = 50) ∧
    (∀ d : String, targetOf ⟨d, some 0⟩ = 50) := by
  refine ⟨fun d p hp => ?_, fun d => rfl, fun d => by norm_num [targetOf]⟩
  simp [targetOf, hp]

/-- C9 witness: the amended target rule at concrete records. -/
theorem targetOf_spec_witness :
    targetOf ⟨"2025-01-02", some 7⟩ = 7 ∧ targetOf ⟨"2025-01-03", none⟩ = 50 :=
  ⟨targetOf_spec.1 ("2025-01-02") 7 (by norm_num), targetOf_spec.2.1 ("2025-01-03")⟩

/-- C8 counterexample: running the Trainer with zero price records replaces
the training set by the generated sample data and completes without any
error: no explicit error is surfaced to the caller. -/
theorem trainModel_empty_cex :
    trainingPriceData [] [⟨"2025-01-01", some 50⟩] = [⟨"2025-01-01", some 50⟩] ∧
    ([(⟨"2025-01-01", some 50⟩ : PriceRecord)] ≠ ([] : List PriceRecord)) ∧
    (trainModel [] [] [⟨"2025-01-01", some 50⟩] (fun _ => ⟨0, 0, 0⟩)).isOk = true := by
  refine ⟨rfl, by simp, rfl⟩

/-- C8 (amended): with zero price records the Trainer silently substitutes
the sample price data - training proceeds exactly as if it had been called
on the sample set - and, the sample being non-empty, no error reaches the
caller. -/
theorem trainModel_empty_uses_sample :
    ∀ (wind : List ForecastPoint) (sample : List PriceRecord)
      (dateOf : String → DateParts),
      trainModel wind [] sample dateOf = trainModel wind sample sample dateOf ∧
      (sample ≠ [] → (trainModel wind [] sample dateOf).isOk = true) := by
  intro wind sample dateOf
  constructor
  · simp [trainModel, trainingPriceData]
  · intro hs
    match sample with
    | [] => exact absurd rfl hs
    | r :: rs => rfl

/-- C8 witness: the substitution and error-free completion at a concrete
one-record sample. -/
theorem trainModel_empty_uses_sample_witness :
    trainModel [] [] [⟨"2025-01-01", some 50⟩] (fun _ => ⟨0, 0, 0⟩) =
      trainModel [] [⟨"2025-01-01", some 50⟩] [⟨"2025-01-01", some 50⟩]
        (fun _ => ⟨0, 0, 0⟩) ∧
    (trainModel [] [] [⟨"2025-01-01", some 50⟩] (fun _ => ⟨0, 0, 0⟩)).isOk = true :=
  ⟨(trainModel_empty_uses_sample [] [⟨"2025-01-01", some 50⟩] (fun _ => ⟨0, 0, 0⟩)).1,
   (trainModel_empty_uses_sample [] [⟨"2025-01-01", some 50⟩] (fun _ => ⟨0, 0, 0⟩)).2
     (by simp)⟩

/-- The in-place update loop leaves the weight list's length unchanged. -/
theorem updateWeights_length (lr : ℚ) (grad : Nat → ℚ) (F : Nat) (w : List ℚ) :
    (updateWeights lr grad F w).length = w.length := by
  unfold updateWeights
  generalize List.range F = js
  induction js generalizing w with
  | nil => rfl
  | cons j js ih => rw [List.foldl_cons, ih, List.length_set]

/-- Entry-wise description of the in-place update loop: position `j` is
written once, from its own pre-loop value, so the loop acts synchronously. -/
theorem updateWeights_getD (lr : ℚ) (grad : Nat → ℚ) :
    ∀ (F : Nat) (w : List ℚ) (j : Nat),
      (updateWeights lr grad F w).getD j 0 =
        if j < F ∧ j < w.length then w.getD j 0 - lr * grad j else w.getD j 0 := by
  intro F
  induction F with
  | zero => intro w j; simp [updateWeights]
  | succ F ih =>
    intro w j
    have hstep : updateWeights lr grad (F + 1) w =
        (updateWeights lr grad F w).set F
          ((updateWeights lr grad F w).getD F 0 - lr * grad F) := by
      unfold updateWeights
      rw [List.range_succ, List.foldl_append]
      rfl
    have hF : (updateWeights lr grad F w).getD F 0 = w.getD F 0 := by
      rw [ih]; simp
    have hlen : (updateWeights lr grad F w).length = w.length :=
      updateWeights_length lr grad F w
    rw [hstep, hF]
    rcases eq_or_ne F j with hFj | hFj
    · subst hFj
      by_cases hj : F < w.length
      · have h2 : ((updateWeights lr grad F w).set F
            (w.getD F 0 - lr * grad F)).getD F 0 = w.getD F 0 - lr * grad F := by
          rw [List.getD_eq_getElem?_getD, List.getElem?_set, if_pos rfl, hlen,
            if_pos hj, Option.getD_some]
        rw [h2, if_pos (show F < F + 1 ∧ F < w.length from ⟨Nat.lt_succ_self F, hj⟩)]
      · have h2 : ((updateWeights lr grad F w).set F
            (w.getD F 0 - lr * grad F)).getD F 0 = 0 := by
          rw [List.getD_eq_getElem?_getD, List.getElem?_set, if_pos rfl, hlen,
            if_neg hj, Option.getD_none]
        rw [h2, if_neg (show ¬(F < F + 1 ∧ F < w.length) from fun h => hj h.2),
          List.getD_eq_getElem?_getD, List.getElem?_eq_none (Nat.le_of_not_lt hj),
          Option.getD_none]
    · have h2 : ((updateWeights lr grad F w).set F
          (w.getD F 0 - lr * grad F)).getD j 0 =
          (updateWeights lr grad F w).getD j 0 := by
        rw [List.getD_eq_getElem?_getD, List.getElem?_set, if_neg hFj,
          ← List.getD_eq_getElem?_getD]
      rw [h2, ih]
      have hiff : (j < F ∧ j < w.length) ↔ (j < F + 1 ∧ j < w.length) := by omega
      rw [if_congr hiff rfl rfl]

/-- Over the full index range, the in-place loop equals the synchronous
per-index map. -/
theorem updateWeights_eq_map (lr : ℚ) (grad : Nat → ℚ) (w : List ℚ) :
    updateWeights lr grad w.length w =
      (List.range w.length).map (fun j => w.getD j 0 - lr * grad j) := by
  apply List.ext_getElem
  · rw [updateWeights_length, List.length_map, List.length_range]
  · intro n h1 h2
    have hn : n < w.length := by rwa [updateWeights_length] at h1
    rw [List.getElem_map, List.getElem_range,
      ← List.getD_eq_getElem (updateWeights lr grad w.length w) 0 h1,
      updateWeights_getD, if_pos ⟨hn, hn⟩]

/-- One source iteration equals one synchronous spec iteration. -/
theorem gdIter_eq_spec (X : List (List ℚ)) (y : List ℚ) (wb : List ℚ × ℚ) :
    gdIter X y wb.1.length wb = gdStepSpec X y wb := by
  rw [Prod.ext_iff]
  exact ⟨updateWeights_eq_map _ _ _, rfl⟩

/-- The synchronous step preserves the weight count. -/
theorem gdStepSpec_fst_length (X : List (List ℚ)) (y : List ℚ) (wb : List ℚ × ℚ) :
    (gdStepSpec X y wb).1.length = wb.1.length := by
  show ((List.range wb.1.length).map _).length = _
  rw [List.length_map, List.length_range]

/-- Iterating the source step equals iterating the synchronous step, for a
weight vector of the right length. -/
theorem iterate_gdIter_eq_spec (X : List (List ℚ)) (y : List ℚ) (F : Nat) :
    ∀ (k : Nat) (wb : List ℚ × ℚ), wb.1.length = F →
      (gdIter X y F)^[k] wb = (gdStepSpec X y)^[k] wb := by
  intro k
  induction k with
  | zero => intro wb h; rfl
  | succ k ih =>
    intro wb h
    rw [Function.iterate_succ_apply, Function.iterate_succ_apply]
    have h1 : gdIter X y F wb = gdStepSpec X y wb := by
      rw [← h]; exact gdIter_eq_spec X y wb
    rw [h1]
    exact ih _ (by rw [gdStepSpec_fst_length, h])

/-- C2: on a non-empty design matrix with a parallel target vector, `fit`
performs exactly 1000 iterations with learning rate 0.01 and no early
stopping, each iteration computing all errors from the pre-iteration
weights and bias and then synchronously updating every weight by
lr x mean(error_i x X[i][j]) and the bias by lr x mean(error), starting
from the zero weight vector. -/
theorem fit_is_batch_gd (m : LinearRegression) (X : List (List ℚ)) (y : List ℚ)
    (x0 : List ℚ) (xs : List (List ℚ)) (hX : X = x0 :: xs)
    (hy : y.length = X.length) :
    fit m X y =
      .ok { weights :=
              some (((gdStepSpec X y)^[1000]) (List.replicate x0.length 0, m.bias)).1,
            bias := (((gdStepSpec X y)^[1000]) (List.replicate x0.length 0, m.bias)).2,
            featureNames := m.featureNames } := by
  subst hX
  have hiter := iterate_gdIter_eq_spec (x0 :: xs) y x0.length 1000
    (List.replicate x0.length (0 : ℚ), m.bias) (List.length_replicate _ _)
  simp only [fit]
  rw [hiter]

/-- C2 witness: the batch-gradient-descent description of `fit` at a
concrete one-sample problem. -/
theorem fit_is_batch_gd_witness :
    fit lrInit [[(1 : ℚ)]] [2] =
      .ok { weights :=
              some (((gdStepSpec [[(1 : ℚ)]] [2])^[1000]) (List.replicate 1 0, 0)).1,
            bias := (((gdStepSpec [[(1 : ℚ)]] [2])^[1000]) (List.replicate 1 0, 0)).2,
            featureNames := [] } :=
  fit_is_batch_gd lrInit [[(1 : ℚ)]] [2] [(1 : ℚ)] [] rfl rfl

/-- C3 (amended, part): the result of `fit` never depends on the previous
weight vector - the weights are re-initialized to zero on every call. -/
theorem fit_ignores_prior_weights :
    ∀ (w1 w2 : Option (List ℚ)) (b : ℚ) (fn : List String)
      (X : List (List ℚ)) (y : List ℚ),
      fit ⟨w1, b, fn⟩ X y = fit ⟨w2, b, fn⟩ X y :=
  fun _ _ _ _ _ _ => rfl

/-- One synchronous step on the one-sample problem `X = [[0]]`, `y = [0]`:
the weight gradient is zero and the bias contracts by the factor 99/100. -/
theorem gdStepSpec_c3 (b : ℚ) :
    gdStepSpec [[0]] [0] ([0], b) = ([0], b * (99 / 100)) := by
  simp [gdStepSpec, predictWB, List.range_succ, List.enum, List.enumFrom]
  ring

/-- The same step in the source's form. -/
theorem gdIter_c3 (b : ℚ) :
    gdIter [[0]] [0] 1 ([0], b) = ([0], b * (99 / 100)) :=
  (gdIter_eq_spec [[0]] [0] ([(0 : ℚ)], b)).trans (gdStepSpec_c3 b)

/-- Iterating the source step on `X = [[0]]`, `y = [0]` scales the starting
bias by `(99/100)^k` and never touches it otherwise. -/
theorem iterate_gdIter_c3 : ∀ (k : Nat) (b : ℚ),
    (gdIter [[0]] [0] 1)^[k] ([0], b) = ([0], b * (99 / 100) ^ k) := by
  intro k
  induction k with
  | zero => intro b; simp
  | succ k ih =>
    intro b
    rw [Function.iterate_succ_apply, gdIter_c3, ih]
    have h : b * (99 / 100) * (99 / 100) ^ k = b * (99 / 100) ^ (k + 1) := by ring
    rw [h]

/-- C3 counterexample: two models that differ only in their stored bias fit
to different results on the same data - the prior bias 100 survives as
`100·(99/100)^1000 ≠ 0` in the fitted model, while the fresh model's fitted
bias is 0.  Gradient descent therefore does not start from a re-initialized
bias. -/
theorem fit_bias_carryover_cex :
    fit ⟨some [3], 100, []⟩ [[0]] [0] =
      .ok ⟨some [0], 100 * (99 / 100) ^ 1000, []⟩ ∧
    fit lrInit [[0]] [0] = .ok ⟨some [0], 0, []⟩ ∧
    (100 : ℚ) * (99 / 100) ^ 1000 ≠ 0 := by
  refine ⟨?_, ?_, ?_⟩
  · have h := iterate_gdIter_c3 1000 100
    calc fit ⟨some [3], 100, []⟩ [[0]] [0]
        = .ok ⟨some ((gdIter [[0]] [0] 1)^[1000] ([0], (100 : ℚ))).1,
            ((gdIter [[0]] [0] 1)^[1000] ([0], (100 : ℚ))).2, []⟩ := rfl
      _ = .ok ⟨some [0], 100 * (99 / 100) ^ 1000, []⟩ := by rw [h]
  · have h := iterate_gdIter_c3 1000 0
    rw [zero_mul] at h
    calc fit lrInit [[0]] [0]
        = .ok ⟨some ((gdIter [[0]] [0] 1)^[1000] ([0], (0 : ℚ))).1,
            ((gdIter [[0]] [0] 1)^[1000] ([0], (0 : ℚ))).2, []⟩ := rfl
      _ = .ok ⟨some [0], 0, []⟩ := by rw [h]
  · have h : (0 : ℚ) < 100 * (99 / 100) ^ 1000 := by positivity
    exact ne_of_gt h

/-- One synchronous step on the C4 data: only the first weight and the bias
move, following the two-variable recurrence `c4Step`. -/
theorem gdStepSpec_c4 (w b : ℚ) :
    gdStepSpec c4X c4y ([w, 0, 0, 0, 0, 0, 0], b) =
      ([(c4Step (w, b)).1, 0, 0, 0, 0, 0, 0], (c4Step (w, b)).2) := by
  simp [gdStepSpec, predictWB, c4X, c4y, c4Step, List.range_succ, List.enum,
    List.enumFrom]
  norm_num
  constructor <;> ring

/-- The same step in the source's form. -/
theorem gdIter_c4 (w b : ℚ) :
    gdIter c4X c4y 7 ([w, 0, 0, 0, 0, 0, 0], b) =
      ([(c4Step (w, b)).1, 0, 0, 0, 0, 0, 0], (c4Step (w, b)).2) :=
  (gdIter_eq_spec c4X c4y ([w, 0, 0, 0, 0, 0, 0], b)).trans (gdStepSpec_c4 w b)

/-- Iterating the source step on the C4 data follows `c4Step`. -/
theorem iterate_gdIter_c4 : ∀ (k : Nat) (w b : ℚ),
    (gdIter c4X c4y 7)^[k] ([w, 0, 0, 0, 0, 0, 0], b) =
      ([(c4Step^[k] (w, b)).1, 0, 0, 0, 0, 0, 0], (c4Step^[k] (w, b)).2) := by
  intro k
  induction k with
  | zero => intro w b; rfl
  | succ k ih =>
    intro w b
    rw [Function.iterate_succ_apply, gdIter_c4, ih]
    rfl

set_option maxRecDepth 100000 in
/-- First 250 iterations of the C4 recurrence, evaluated exactly. -/
theorem c4Step_chunk1 : c4Step^[250] ((0 : ℚ), (0 : ℚ)) = c4Q250 := by decide

set_option maxRecDepth 100000 in
/-- Iterations 251-500 of the C4 recurrence, evaluated exactly. -/
theorem c4Step_chunk2 : c4Step^[250] c4Q250 = c4Q500 := by decide

set_option maxRecDepth 100000 in
/-- Iterations 501-750 of the C4 recurrence, evaluated exactly. -/
theorem c4Step_chunk3 : c4Step^[250] c4Q500 = c4Q750 := by decide

set_option maxRecDepth 100000 in
/-- Iterations 751-1000 of the C4 recurrence, evaluated exactly. -/
theorem c4Step_chunk4 : c4Step^[250] c4Q750 = c4Q1000 := by decide

/-- All 1000 iterations of the C4 recurrence, glued from the four chunks. -/
theorem c4Step_iterate_1000 : c4Step^[1000] ((0 : ℚ), (0 : ℚ)) = c4Q1000 := by
  rw [(by norm_num : (1000 : ℕ) = 750 + 250), Function.iterate_add_apply,
    c4Step_chunk1,
    (by norm_num : (750 : ℕ) = 500 + 250), Function.iterate_add_apply,
    c4Step_chunk2,
    (by norm_num : (500 : ℕ) = 250 + 250), Function.iterate_add_apply,
    c4Step_chunk3, c4Step_chunk4]

/-- C4: training the fresh model on
`X = [[1,0,...],[2,0,...],[3,0,...]]`, `y = [10,20,30]` (exact arithmetic,
1000 iterations, learning rate 0.01) and predicting `[4,0,0,0,0,0,0]`
yields a price within 20 percent relative error of 40, i.e. in [32, 48]
(the exact value is about 39.16). -/
theorem c4_convergence :
    32 ≤ predict c4Fitted [4, 0, 0, 0, 0, 0, 0] ∧
    predict c4Fitted [4, 0, 0, 0, 0, 0, 0] ≤ 48 := by
  have h := iterate_gdIter_c4 1000 0 0
  rw [c4Step_iterate_1000] at h
  have hfit : fit lrInit c4X c4y =
      .ok ⟨some [c4Q1000.1, 0, 0, 0, 0, 0, 0], c4Q1000.2, []⟩ := by
    calc fit lrInit c4X c4y
        = .ok ⟨some ((gdIter c4X c4y 7)^[1000] ([0, 0, 0, 0, 0, 0, 0], (0 : ℚ))).1,
            ((gdIter c4X c4y 7)^[1000] ([0, 0, 0, 0, 0, 0, 0], (0 : ℚ))).2, []⟩ := rfl
      _ = .ok ⟨some [c4Q1000.1, 0, 0, 0, 0, 0, 0], c4Q1000.2, []⟩ := by rw [h]
  have hp : predict c4Fitted [4, 0, 0, 0, 0, 0, 0] = c4Q1000.2 + 4 * c4Q1000.1 := by
    unfold c4Fitted
    rw [hfit]
    show predict ⟨some [c4Q1000.1, 0, 0, 0, 0, 0, 0], c4Q1000.2, []⟩
      [4, 0, 0, 0, 0, 0, 0] = _
    simp [predict, predictWB, List.enum, List.enumFrom]
  rw [hp]
  constructor <;> decide

/-- C6: whenever the day index is outside [0, 9) or the Finland-filtered
point set is empty, `extractFeatures` returns the deterministic synthetic
features `windSpeed = 3 + (seed mod 100)/100·8 ∈ [3, 11)` and
`temperature = -5 + (seed mod 100)/100·20 ∈ [-5, 15)`, with `seed` the
character-code sum of the date string; two such calls with the same date
string therefore return identical wind and temperature features. -/
theorem extractFeatures_synthetic
    (wd : List ForecastPoint) (pd : List PriceRecord) (td : String) (di : Int)
    (dp : DateParts) (wd2 : List ForecastPoint) (pd2 : List PriceRecord)
    (di2 : Int) (dp2 : DateParts)
    (h1 : ¬ (0 ≤ di ∧ di < 9) ∨ wd.filter inFinland = [])
    (h2 : ¬ (0 ≤ di2 ∧ di2 < 9) ∨ wd2.filter inFinland = []) :
    (extractFeatures wd pd td di dp).getD 0 0 =
      3 + ((charCodeSum td % 100 : ℕ) : ℚ) / 100 * 8 ∧
    (extractFeatures wd pd td di dp).getD 1 0 =
      -5 + ((charCodeSum td % 100 : ℕ) : ℚ) / 100 * 20 ∧
    3 ≤ (extractFeatures wd pd td di dp).getD 0 0 ∧
    (extractFeatures wd pd td di dp).getD 0 0 < 11 ∧
    -5 ≤ (extractFeatures wd pd td di dp).getD 1 0 ∧
    (extractFeatures wd pd td di dp).getD 1 0 < 15 ∧
    (extractFeatures wd2 pd2 td di2 dp2).getD 0 0 =
      (extractFeatures wd pd td di dp).getD 0 0 ∧
    (extractFeatures wd2 pd2 td di2 dp2).getD 1 0 =
      (extractFeatures wd pd td di dp).getD 1 0 := by
  have hcond : ∀ (w : List ForecastPoint) (d : Int),
      (¬ (0 ≤ d ∧ d < 9) ∨ w.filter inFinland = []) →
      ¬ (0 ≤ d ∧ d < 9 ∧ 0 < (w.filter inFinland).length) := by
    rintro w d (h | h) ⟨ha, hb, hc⟩
    · exact h ⟨ha, hb⟩
    · rw [h] at hc
      exact absurd hc (by norm_num)
  have e1 : (extractFeatures wd pd td di dp).getD 0 0 =
      3 + ((charCodeSum td % 100 : ℕ) : ℚ) / 100 * 8 := by
    simp only [extractFeatures, if_neg (hcond wd di h1), List.getD_cons_zero]
  have e2 : (extractFeatures wd pd td di dp).getD 1 0 =
      -5 + ((charCodeSum td % 100 : ℕ) : ℚ) / 100 * 20 := by
    simp only [extractFeatures, if_neg (hcond wd di h1), List.getD_cons_succ,
      List.getD_cons_zero]
  have f1 : (extractFeatures wd2 pd2 td di2 dp2).getD 0 0 =
      3 + ((charCodeSum td % 100 : ℕ) : ℚ) / 100 * 8 := by
    simp only [extractFeatures, if_neg (hcond wd2 di2 h2), List.getD_cons_zero]
  have f2 : (extractFeatures wd2 pd2 td di2 dp2).getD 1 0 =
      -5 + ((charCodeSum td % 100 : ℕ) : ℚ) / 100 * 20 := by
    simp only [extractFeatures, if_neg (hcond wd2 di2 h2), List.getD_cons_succ,
      List.getD_cons_zero]
  have hub : ((charCodeSum td % 100 : ℕ) : ℚ) < 100 := by
    exact_mod_cast Nat.mod_lt _ (by norm_num)
  have hlb : (0 : ℚ) ≤ ((charCodeSum td % 100 : ℕ) : ℚ) := Nat.cast_nonneg _
  refine ⟨e1, e2, ?_, ?_, ?_, ?_, f1.trans e1.symm, f2.trans e2.symm⟩
  · rw [e1]; nlinarith
  · rw [e1]; nlinarith
  · rw [e2]; nlinarith
  · rw [e2]; nlinarith

/-- C6 witness: the synthetic branch at the date string "2030-01-01", once
with an out-of-range day index and once with a negative one on a different
(empty) grid: formula, lower bound and determinism hold. -/
theorem extractFeatures_synthetic_witness :
    (extractFeatures [] [] ("2030-01-01") 100 ⟨0, 0, 0⟩).getD 0 0 =
      3 + ((charCodeSum ("2030-01-01") % 100 : ℕ) : ℚ) / 100 * 8 ∧
    3 ≤ (extractFeatures [] [] ("2030-01-01") 100 ⟨0, 0, 0⟩).getD 0 0 ∧
    (extractFeatures [] [] ("2030-01-01") (-1) ⟨8, 6, 0⟩).getD 0 0 =
      (extractFeatures [] [] ("2030-01-01") 100 ⟨0, 0, 0⟩).getD 0 0 :=
  ⟨(extractFeatures_synthetic [] [] ("2030-01-01") 100 ⟨0, 0, 0⟩ [] [] (-1) ⟨8, 6, 0⟩
      (Or.inr rfl) (Or.inr rfl)).1,
   (extractFeatures_synthetic [] [] ("2030-01-01") 100 ⟨0, 0, 0⟩ [] [] (-1) ⟨8, 6, 0⟩
      (Or.inr rfl) (Or.inr rfl)).2.2.1,
   (extractFeatures_synthetic [] [] ("2030-01-01") 100 ⟨0, 0, 0⟩ [] [] (-1) ⟨8, 6, 0⟩
      (Or.inr rfl) (Or.inr rfl)).2.2.2.2.2.2.1⟩

/-- Per point, the extractor's day-`d` wind contribution never exceeds the
Predictor's (they differ exactly on missing or zero-wind entries). -/
theorem extractorWindAt_le_predictorWindAt (p : ForecastPoint) (d : Nat) :
    extractorWindAt p d ≤ predictorWindAt p d := by
  cases h : p.forecasts[d]? with
  | none => simp [extractorWindAt, predictorWindAt, h]
  | some f =>
    simp only [extractorWindAt, predictorWindAt, h]
    split_ifs with hw
    · rw [hw]; norm_num
    · exact le_refl _

/-- A grid point with no day-`d` forecast makes the Predictor's wind sum
strictly larger than the extractor's. -/
theorem predictor_wind_sum_gt (pts : List ForecastPoint) (d : Nat)
    (h : ∃ p ∈ pts, p.forecasts[d]? = none) :
    (pts.map (fun p => extractorWindAt p d)).sum <
      (pts.map (fun p => predictorWindAt p d)).sum := by
  apply List.sum_lt_sum
  · intro p _
    exact extractorWindAt_le_predictorWindAt p d
  · obtain ⟨p, hp, hnone⟩ := h
    refine ⟨p, hp, ?_⟩
    simp [extractorWindAt, predictorWindAt, hnone]

/-- C10: in the Predictor's per-day averaging, a Finland-filtered point
with no day-`d` forecast entry (or a zero day-`d` wind speed) contributes 5
to the wind-speed sum while a missing temperature contributes 0, the sums
being divided by the count of all filtered points; the Feature Extractor
substitutes 0 for missing wind entries instead, so on a grid with a missing
day-`d` entry the two average wind speeds differ. -/
theorem predictor_defaults_differ :
    (∀ (p : ForecastPoint) (d : Nat), p.forecasts[d]? = none →
      predictorWindAt p d = 5 ∧ predictorTempAt p d = 0) ∧
    (∀ (p : ForecastPoint) (d : Nat) (f : DailyForecast),
      p.forecasts[d]? = some f → f.windSpeed = 0 → predictorWindAt p d = 5) ∧
    (∀ (p : ForecastPoint) (d : Nat), p.forecasts[d]? = none →
      extractorWindAt p d = 0) ∧
    (∀ (wd : List ForecastPoint) (d : Nat),
      (∃ p ∈ wd.filter inFinland, p.forecasts[d]? = none) →
      predictorAvgWind (wd.filter inFinland) d ≠
        extractorAvgWind (wd.filter inFinland) d) := by
  refine ⟨fun p d h => ⟨by simp [predictorWindAt, h], by simp [predictorTempAt, h]⟩,
    fun p d f hf hw => by simp [predictorWindAt, hf, hw],
    fun p d h => by simp [extractorWindAt, h],
    fun wd d h => ?_⟩
  have hne : wd.filter inFinland ≠ [] := by
    obtain ⟨p, hp, _⟩ := h
    exact List.ne_nil_of_mem hp
  have hlen : (wd.filter inFinland).length ≠ 0 :=
    fun h0 => hne (List.length_eq_zero.mp h0)
  have hpos : (0 : ℚ) < ((wd.filter inFinland).length : ℚ) := by
    exact_mod_cast Nat.pos_of_ne_zero hlen
  have hlt := predictor_wind_sum_gt (wd.filter inFinland) d h
  unfold predictorAvgWind extractorAvgWind avgBy
  rw [if_neg hlen]
  exact ne_of_gt (div_lt_div_of_pos_right hlt hpos)

/-- C10 witness: a single in-Finland point with an empty forecast series
contributes 5 on the Predictor side, and the two day-0 averages differ. -/
theorem predictor_defaults_differ_witness :
    predictorWindAt ⟨61, 25, []⟩ 0 = 5 ∧
    predictorAvgWind
        (List.filter inFinland [(⟨61, 25, []⟩ : ForecastPoint)]) 0 ≠
      extractorAvgWind
        (List.filter inFinland [(⟨61, 25, []⟩ : ForecastPoint)]) 0 :=
  ⟨(predictor_defaults_differ.1 ⟨61, 25, []⟩ 0 rfl).1,
   predictor_defaults_differ.2.2.2 [⟨61, 25, []⟩] 0
     ⟨⟨61, 25, []⟩, by decide, rfl⟩⟩

end WindPowers
